import Mathlib

/-!
Shallow embedding of the FLUX CLI orchestration layer (src/main.c).

The CLI progress reporter (cli_step_callback, cli_substep_callback,
cli_finish_progress) is modelled as pure state-transition functions over the
`cli_current_step` counter, producing an abstract output stream.  The body of
`main` after argument parsing is modelled as `mainRun`, a function from the
parsed options and an oracle `World` (wall clock, engine and file-system
collaborators) to an exit code, an error classification, an event trace and
the standard-output lines.
-/

/- ===== Progress reporter (src/main.c lines 41-90) ===== -/

/-- Abstract stderr output tokens emitted by the progress reporter:
a line break, the "Step s/t " text opening a step line, or a single
marker character (d, s or F). -/
inductive Out
  | newline
  | stepText (step total : Int)
  | marker (c : Char)
  deriving Repr, DecidableEq

/-- flux_substep_type_t from flux.h, as used by cli_substep_callback. -/
inductive flux_substep_type
  | double_block
  | single_block
  | final_layer
  deriving Repr, DecidableEq

/-- cli_step_callback: given the current value of cli_current_step and a step
event (step, total), returns the new cli_current_step and the output emitted:
a newline first if a previous step line is open (cli_current_step > 0), then
the new step line header. -/
def cli_step_callback (cur step total : Int) : Int × List Out :=
  (step, (if cur > 0 then [Out.newline] else []) ++ [Out.stepText step total])

/-- cli_substep_callback: output for one substep event.  Double blocks and the
final layer print one marker each; single blocks print a marker only when
(index + 1) % 5 == 0.  The state is untouched and no newline is emitted. -/
def cli_substep_callback (type : flux_substep_type) (index total : Int) : List Out :=
  match type with
  | .double_block => [Out.marker 'd']
  | .single_block => if (index + 1) % 5 = 0 then [Out.marker 's'] else []
  | .final_layer => [Out.marker 'F']

/-- cli_finish_progress: if a step line is open (cli_current_step > 0), emit a
final newline and reset cli_current_step to 0; otherwise do nothing. -/
def cli_finish_progress (cur : Int) : Int × List Out :=
  if cur > 0 then (0, [Out.newline]) else (cur, [])

/-- A progress event delivered by the engine during generation. -/
inductive ProgEvent
  | step (s t : Int)
  | substep (k : flux_substep_type) (i t : Int)
  deriving Repr, DecidableEq

/-- Run a sequence of progress events through the reporter from a given
cli_current_step state, collecting the output stream. -/
def runProg (cur : Int) : List ProgEvent → Int × List Out
  | [] => (cur, [])
  | ProgEvent.step s t :: rest =>
      let r1 := cli_step_callback cur s t
      let r2 := runProg r1.1 rest
      (r2.1, r1.2 ++ r2.2)
  | ProgEvent.substep k i t :: rest =>
      let o1 := cli_substep_callback k i t
      let r2 := runProg cur rest
      (r2.1, o1 ++ r2.2)

/-- Is this output token a line break? -/
def isNewline : Out → Bool
  | Out.newline => true
  | _ => false

/-- Is this output token a substep marker character? -/
def isMarker : Out → Bool
  | Out.marker _ => true
  | _ => false

/-- Number of line breaks in an output stream. -/
def countNewlines (l : List Out) : Nat := (l.filter isNewline).length

/-- Number of marker characters in an output stream. -/
def countMarkers (l : List Out) : Nat := (l.filter isMarker).length

/- ===== Data model of main (src/main.c lines 130-493) ===== -/

/-- flux_params as populated by the CLI.  guidance_scale and strength are C
floats; the CLI only ever compares them against exact small constants, so
they are modelled as rationals. -/
structure flux_params where
  width : Int
  height : Int
  num_steps : Int
  guidance_scale : Rat
  seed : Int
  strength : Rat
  deriving Repr, DecidableEq

/-- A loaded raster image (flux_image): only the fields main reads. -/
structure flux_image where
  width : Int
  height : Int
  channels : Int
  deriving Repr, DecidableEq

/-- A binary file as seen through fopen/fseek/ftell/fread: its byte size and
whether fread succeeds in reading exactly that many bytes. -/
structure BinFile where
  size : Nat
  readOk : Bool
  deriving Repr, DecidableEq

/-- The parsed command-line options, i.e. the state of main's locals after the
getopt loop (src/main.c lines 156-231). -/
structure Opts where
  model_dir : Option String
  prompt : Option String
  output_path : Option String
  input_path : Option String
  embeddings_path : Option String
  noise_path : Option String
  params : flux_params
  width_set : Bool
  height_set : Bool
  verbose : Bool
  deriving Repr, DecidableEq

/-- The external collaborators and environment of one run: wall clock,
model loader, image loader, binary-file reads, the four engine generation
entry points and the image saver.  Each generation entry point is an oracle
from its visible arguments to an optional output image (NULL = failure). -/
structure World where
  now : Nat
  loadOk : Bool
  loadImage : String → Option flux_image
  file : String → Option BinFile
  gen_img2img : Option String → flux_image → flux_params → Option flux_image
  gen_with_emb_noise : Nat → Nat → flux_params → Option flux_image
  gen_with_emb : Nat → flux_params → Option flux_image
  gen : Option String → flux_params → Option flux_image
  save : flux_image → String → Bool

/-- The arguments with which an engine generation entry point is invoked. -/
inductive GenCallArgs
  | img2img (prompt : Option String) (inputW inputH : Int) (p : flux_params)
  | withEmbNoise (text_seq : Nat) (noise_size : Nat) (p : flux_params)
  | withEmb (text_seq : Nat) (p : flux_params)
  | plain (prompt : Option String) (p : flux_params)
  deriving Repr, DecidableEq

/-- Which engine generation entry point a call used. -/
inductive GenKind
  | img2imgK
  | withEmbNoiseK
  | withEmbK
  | plainK
  deriving Repr, DecidableEq

/-- The entry point of a recorded generation call. -/
def kindOf : GenCallArgs → GenKind
  | .img2img _ _ _ _ => .img2imgK
  | .withEmbNoise _ _ _ => .withEmbNoiseK
  | .withEmb _ _ => .withEmbK
  | .plain _ _ => .plainK

/-- The text sequence length a generation call passes to the engine, when the
call takes external embeddings. -/
def embSeqOf : GenCallArgs → Option Nat
  | .withEmbNoise s _ _ => some s
  | .withEmb s _ => some s
  | _ => none

/-- Observable effects of one run, in program order. -/
inductive Event
  | modelLoad
  | armProgress
  | setSeed (s : Int)
  | printSeed (s : Int)
  | loadImageCall (p : String)
  | openFile (p : String)
  | genCall (a : GenCallArgs)
  | disarmProgress
  | errorMsg
  | saveCall (p : String)
  | freeImage
  | freeCtx
  deriving Repr, DecidableEq

/-- Error taxonomy of a failed run. -/
inductive RunError
  | ArgumentError
  | ModelLoadError
  | ImageLoadError
  | EmbeddingsFileError
  | NoiseFileError
  | GenerationError
  | ImageSaveError
  deriving Repr, DecidableEq

/-- Outcome of one run: process exit code, error classification (none on
success), the event trace, and the lines written to standard output. -/
structure RunResult where
  exit : Nat
  error : Option RunError
  trace : List Event
  stdout : List String
  deriving Repr, DecidableEq

/-- FLUX_TEXT_DIM: fixed per-token embedding width (src/main.c line 369). -/
def FLUX_TEXT_DIM : Nat := 7680

/-- Seed resolution (src/main.c lines 307-312): a requested seed >= 0 is used
as is; a negative requested seed resolves to the wall clock in seconds. -/
def resolveSeed (requested : Int) (now : Nat) : Int :=
  if 0 ≤ requested then requested else (now : Int)

/-- A run rejected during argument validation: exit 1, no events. -/
def argError : RunResult := ⟨1, some RunError.ArgumentError, [], []⟩

/-- Events common to every run that passes validation and loads the model:
the model load, arming of the progress reporter in verbose mode
(cli_setup_progress, line 303), flux_set_seed and the unconditional seed
report on stderr (lines 313-316). -/
def preTrace (o : Opts) (r : Int) : List Event :=
  Event.modelLoad ::
    (if o.verbose then [Event.armProgress] else []) ++
    [Event.setSeed r, Event.printSeed r]

/-- The tail of main after a generation attempt (src/main.c lines 447-493):
disarm the reporter in verbose mode, check the output for NULL, save it and
release everything. -/
def finish (o : Opts) (t : List Event) (output : Option flux_image) (w : World) : RunResult :=
  let t1 := t ++ (if o.verbose then [Event.disarmProgress] else [])
  match output with
  | none => ⟨1, some RunError.GenerationError, t1 ++ [Event.errorMsg, Event.freeCtx], []⟩
  | some img =>
      let outp := o.output_path.getD ""
      if w.save img outp then
        ⟨0, none, t1 ++ [Event.saveCall outp, Event.freeImage, Event.freeCtx],
          if o.verbose then [] else [outp]⟩
      else
        ⟨1, some RunError.ImageSaveError,
          t1 ++ [Event.saveCall outp, Event.errorMsg, Event.freeImage, Event.freeCtx], []⟩

/-- The image-to-image branch (src/main.c lines 323-348). -/
def img2imgBranch (o : Opts) (w : World) (pre : List Event) (ip : String) : RunResult :=
  match w.loadImage ip with
  | none => ⟨1, some RunError.ImageLoadError,
      pre ++ [Event.loadImageCall ip, Event.errorMsg, Event.freeCtx], []⟩
  | some input =>
      let p1 : flux_params :=
        { o.params with
          width := if o.width_set then o.params.width else input.width,
          height := if o.height_set then o.params.height else input.height }
      let a := GenCallArgs.img2img o.prompt input.width input.height p1
      finish o (pre ++ [Event.loadImageCall ip, Event.genCall a, Event.freeImage])
        (w.gen_img2img o.prompt input p1) w

/-- The external-embeddings branch (src/main.c lines 349-437): open and read
the embeddings file, infer the sequence length from the byte size, optionally
open and read the noise file, then call the matching engine entry point. -/
def embBranch (o : Opts) (w : World) (pre : List Event) (ep : String) : RunResult :=
  match w.file ep with
  | none => ⟨1, some RunError.EmbeddingsFileError,
      pre ++ [Event.openFile ep, Event.errorMsg, Event.freeCtx], []⟩
  | some f =>
      let text_seq := f.size / (FLUX_TEXT_DIM * 4)
      if f.readOk = false then
        ⟨1, some RunError.EmbeddingsFileError,
          pre ++ [Event.openFile ep, Event.errorMsg, Event.freeCtx], []⟩
      else
        match o.noise_path with
        | some np =>
            match w.file np with
            | none => ⟨1, some RunError.NoiseFileError,
                pre ++ [Event.openFile ep, Event.openFile np, Event.errorMsg, Event.freeCtx], []⟩
            | some g =>
                if g.readOk = false then
                  ⟨1, some RunError.NoiseFileError,
                    pre ++ [Event.openFile ep, Event.openFile np, Event.errorMsg, Event.freeCtx], []⟩
                else
                  let noise_size := g.size / 4
                  let a := GenCallArgs.withEmbNoise text_seq noise_size o.params
                  finish o (pre ++ [Event.openFile ep, Event.openFile np, Event.genCall a])
                    (w.gen_with_emb_noise text_seq noise_size o.params) w
        | none =>
            let a := GenCallArgs.withEmb text_seq o.params
            finish o (pre ++ [Event.openFile ep, Event.genCall a])
              (w.gen_with_emb text_seq o.params) w

/-- The part of main after validation and a successful model load
(src/main.c lines 297-493): arm the reporter in verbose mode, resolve and
report the seed, select the generation mode by the priority input image >
embeddings > prompt, run it, and finish. -/
def mainGen (o : Opts) (w : World) : RunResult :=
  let r := resolveSeed o.params.seed w.now
  let pre := preTrace o r
  match o.input_path with
  | some ip => img2imgBranch o w pre ip
  | none =>
      match o.embeddings_path with
      | some ep => embBranch o w pre ep
      | none =>
          finish o (pre ++ [Event.genCall (GenCallArgs.plain o.prompt o.params)])
            (w.gen o.prompt o.params) w

/-- Argument validation (src/main.c lines 233-266), as one predicate: the C
code checks these conditions in sequence with an early return for each, but
every failure yields the same observable outcome (a distinct stderr message
aside): exit 1, error class ArgumentError, nothing loaded.  The conjuncts are
the code's checks in order: model dir present; prompt or embeddings present
(the prompt check is presence, not non-emptiness); output path present;
width, height, steps and strength in range. -/
def validArgs (o : Opts) : Bool :=
  o.model_dir.isSome &&
  (o.prompt.isSome || o.embeddings_path.isSome) &&
  o.output_path.isSome &&
  !(decide (o.params.width < 64) || decide (o.params.width > 4096)) &&
  !(decide (o.params.height < 64) || decide (o.params.height > 4096)) &&
  !(decide (o.params.num_steps < 1) || decide (o.params.num_steps > 100)) &&
  !(decide (o.params.strength < 0) || decide (o.params.strength > 1))

/-- The body of main after the getopt loop (src/main.c lines 233-493):
argument validation (every failure exits 1 before anything is loaded), then
the model load, then `mainGen`. -/
def mainRun (o : Opts) (w : World) : RunResult :=
  if validArgs o = false then argError
  else if w.loadOk = false then
    ⟨1, some RunError.ModelLoadError, [Event.modelLoad, Event.errorMsg], []⟩
  else mainGen o w

/- ===== Helper observations on traces ===== -/

/-- Is this event an engine generation call? -/
def isGenCallE : Event → Bool
  | Event.genCall _ => true
  | _ => false

/-- Is this event a flux_set_seed call? -/
def isSetSeedE : Event → Bool
  | Event.setSeed _ => true
  | _ => false

/-- Is this event the seed report on stderr? -/
def isPrintSeedE : Event → Bool
  | Event.printSeed _ => true
  | _ => false

/-- Is this event an error report on stderr? -/
def isErrorMsgE : Event → Bool
  | Event.errorMsg => true
  | _ => false

/-- Is this event a save of the output image? -/
def isSaveE : Event → Bool
  | Event.saveCall _ => true
  | _ => false

/-- Number of events satisfying a predicate. -/
def countE (p : Event → Bool) (t : List Event) : Nat := (t.filter p).length

/-- The arguments of the generation calls recorded in a trace, in order. -/
def genCalls (t : List Event) : List GenCallArgs :=
  t.filterMap fun e => match e with
    | Event.genCall a => some a
    | _ => none

/-- Whether a trace contains a generation call. -/
def hasGenCall (t : List Event) : Bool := t.any isGenCallE

/-- True when the seed report precedes every generation call in the trace
(vacuously true when the trace has no generation call). -/
def printBeforeGen : List Event → Bool
  | [] => true
  | Event.printSeed _ :: _ => true
  | Event.genCall _ :: _ => false
  | _ :: rest => printBeforeGen rest

/-- The generation mode dictated by the priority order of main's branch
structure: input image first, then embeddings (with noise iff a noise path
is present), else the prompt-only entry point. -/
def selectedKind (o : Opts) : GenKind :=
  if o.input_path.isSome then GenKind.img2imgK
  else if o.embeddings_path.isSome then
    (if o.noise_path.isSome then GenKind.withEmbNoiseK else GenKind.withEmbK)
  else GenKind.plainK

/- ===== Theorems ===== -/

/-- C3: the step protocol of the Progress Reporter: a step event emits a line
break exactly when a previous step's line is still open (cli_current_step > 0)
and then starts the new step line; disarming emits a final line break exactly
when a line is open and leaves the state at "no step in progress"; the
sequence of step events (1,5), (2,5), (3,5) followed by disarm renders exactly
three lines, with two line breaks between the step lines and one at disarm. -/
theorem step_protocol_renders_three_lines :
    (∀ cur step total : Int,
        countNewlines (cli_step_callback cur step total).2 = (if cur > 0 then 1 else 0) ∧
        (cli_step_callback cur step total).2.getLast? = some (Out.stepText step total) ∧
        (cli_step_callback cur step total).1 = step) ∧
    (∀ cur : Int,
        countNewlines (cli_finish_progress cur).2 = (if cur > 0 then 1 else 0) ∧
        (cli_finish_progress cur).1 = (if cur > 0 then 0 else cur)) ∧
    ((runProg 0 [ProgEvent.step 1 5, ProgEvent.step 2 5, ProgEvent.step 3 5]).2 ++
        (cli_finish_progress
          (runProg 0 [ProgEvent.step 1 5, ProgEvent.step 2 5, ProgEvent.step 3 5]).1).2 =
      [Out.stepText 1 5, Out.newline, Out.stepText 2 5, Out.newline,
        Out.stepText 3 5, Out.newline]) := by
  refine ⟨?_, ?_, by decide⟩
  · intro cur step total
    refine ⟨?_, ?_, rfl⟩
    · unfold cli_step_callback countNewlines
      split <;> simp [isNewline]
    · unfold cli_step_callback
      split <;> simp
  · intro cur
    unfold cli_finish_progress countNewlines
    split <;> simp [isNewline]

/-- C4: substep rendering: DoubleBlock and FinalLayer events each render
exactly one marker; a SingleBlock event at index i renders exactly one marker
when (i + 1) mod 5 = 0 and nothing otherwise; no substep event emits a line
break; in particular SingleBlock events at indices 0..9 render exactly two
markers, at indices 4 and 9. -/
theorem substep_marker_policy :
    (∀ index total : Int,
        countMarkers (cli_substep_callback .double_block index total) = 1 ∧
        countMarkers (cli_substep_callback .final_layer index total) = 1) ∧
    (∀ index total : Int,
        countMarkers (cli_substep_callback .single_block index total) =
          (if (index + 1) % 5 = 0 then 1 else 0)) ∧
    (∀ type index total, countNewlines (cli_substep_callback type index total) = 0) ∧
    (((List.range 10).map fun i => cli_substep_callback .single_block (i : Int) 10).flatten =
      [Out.marker 's', Out.marker 's']) ∧
    cli_substep_callback .single_block 4 10 = [Out.marker 's'] ∧
    cli_substep_callback .single_block 9 10 = [Out.marker 's'] := by
  refine ⟨?_, ?_, ?_, by decide, by decide, by decide⟩
  · intro index total
    exact ⟨rfl, rfl⟩
  · intro index total
    by_cases h : (index + 1) % 5 = 0 <;>
      simp [cli_substep_callback, countMarkers, isMarker, h]
  · intro type index total
    cases type
    · rfl
    · by_cases h : (index + 1) % 5 = 0 <;>
        simp [cli_substep_callback, countNewlines, isNewline, h]
    · rfl

/- ===== Concrete inputs used by witnesses ===== -/

/-- A baseline option set: prompt-only, all arguments valid, defaults from
the usage text (width/height 256, 4 steps, guidance 1, seed -1). -/
def opts0 : Opts :=
  { model_dir := some "m", prompt := some "hello", output_path := some "out.png",
    input_path := none, embeddings_path := none, noise_path := none,
    params := { width := 256, height := 256, num_steps := 4,
                guidance_scale := 1, seed := -1, strength := 1 },
    width_set := false, height_set := false, verbose := false }

/-- A world in which every collaborator succeeds.  The embeddings/noise file
byte size 61443 = 7680*4*2 + 3 is deliberately not an exact multiple of one
token's byte width. -/
def world0 : World :=
  { now := 42, loadOk := true,
    loadImage := fun _ => some ⟨128, 96, 3⟩,
    file := fun _ => some ⟨61443, true⟩,
    gen_img2img := fun _ _ _ => some ⟨128, 96, 3⟩,
    gen_with_emb_noise := fun _ _ _ => some ⟨64, 64, 3⟩,
    gen_with_emb := fun _ _ => some ⟨64, 64, 3⟩,
    gen := fun _ _ => some ⟨64, 64, 3⟩,
    save := fun _ _ => true }

/-- Like world0, except every engine generation entry point fails (NULL). -/
def world1 : World :=
  { world0 with
    gen_img2img := fun _ _ _ => none,
    gen_with_emb_noise := fun _ _ _ => none,
    gen_with_emb := fun _ _ => none,
    gen := fun _ _ => none }

/-- opts0 with the output path removed. -/
def optsNoOut : Opts := { opts0 with output_path := none }

/-- opts0 with an empty (but present) prompt. -/
def optsEmptyPrompt : Opts := { opts0 with prompt := some "" }

/-- opts0 with the prompt removed. -/
def optsNoPrompt : Opts := { opts0 with prompt := none }

/-- C8: a run missing the required output path fails with an ArgumentError and
exit status 1, and its trace is empty: in particular no model load is
attempted and no resource is acquired. -/
theorem missing_output_path_fails_fast (o : Opts) (w : World)
    (h : o.output_path = none) :
    (mainRun o w).exit = 1 ∧ (mainRun o w).error = some RunError.ArgumentError ∧
    (mainRun o w).trace = [] := by
  unfold mainRun
  simp [validArgs, h, argError]

/-- Witness for C8 at a concrete invocation. -/
theorem missing_output_path_fails_fast_witness :
    optsNoOut.output_path = none ∧ (mainRun optsNoOut world0).exit = 1 :=
  ⟨rfl, (missing_output_path_fails_fast optsNoOut world0 rfl).1⟩

/-- C7 counterexample: an invocation with no embeddings path and an EMPTY
(but present) prompt is not rejected: the run loads the model and succeeds
with exit status 0, contradicting the claim that an empty or absent prompt
fails with an ArgumentError before any resource is acquired. -/
theorem empty_prompt_not_rejected :
    optsEmptyPrompt.embeddings_path = none ∧
    optsEmptyPrompt.prompt = some "" ∧
    (mainRun optsEmptyPrompt world0).exit = 0 ∧
    (mainRun optsEmptyPrompt world0).error = none ∧
    Event.modelLoad ∈ (mainRun optsEmptyPrompt world0).trace := by
  refine ⟨rfl, rfl, ?_, ?_, ?_⟩ <;> decide

/-- C7 (amended): prompt-only mode requires a PRESENT prompt, enforced before
the pipeline driver runs: with no embeddings path and an ABSENT prompt the run
fails with an ArgumentError, exit status 1, and an empty trace (no resource
acquired).  (The code checks presence, not non-emptiness: an empty string
passed with -p is accepted.) -/
theorem absent_prompt_fails_fast (o : Opts) (w : World)
    (h1 : o.embeddings_path = none) (h2 : o.prompt = none) :
    (mainRun o w).exit = 1 ∧ (mainRun o w).error = some RunError.ArgumentError ∧
    (mainRun o w).trace = [] := by
  unfold mainRun
  simp [validArgs, h1, h2, argError]

/-- Witness for the amended C7 at a concrete invocation. -/
theorem absent_prompt_fails_fast_witness :
    optsNoPrompt.embeddings_path = none ∧ optsNoPrompt.prompt = none ∧
    (mainRun optsNoPrompt world0).exit = 1 :=
  ⟨rfl, rfl, (absent_prompt_fails_fast optsNoPrompt world0 rfl rfl).1⟩
/-- C10: when no embeddings path is supplied, the noise path has no effect:
the run is identical to the same invocation with the noise flag removed, and
no file (in particular no noise file) is ever opened. -/
theorem noise_noninterference (o : Opts) (w : World)
    (h : o.embeddings_path = none) :
    mainRun o w = mainRun { o with noise_path := none } w ∧
    (∀ p : String, Event.openFile p ∉ (mainRun o w).trace) := by
  obtain ⟨md, pr, op, ip, ep, np, pa, ws, hs, vb⟩ := o
  dsimp only at h
  subst h
  constructor
  · cases ip <;> rfl
  · intro p hmem
    unfold mainRun mainGen img2imgBranch finish preTrace argError at hmem
    dsimp only at hmem
    repeat' split at hmem
    all_goals simp at hmem

/-- opts0 with a noise path supplied but no embeddings path. -/
def optsNoise : Opts := { opts0 with noise_path := some "n" }

/-- Witness for C10 at a concrete invocation. -/
theorem noise_noninterference_witness :
    optsNoise.embeddings_path = none ∧
    mainRun optsNoise world0 = mainRun { optsNoise with noise_path := none } world0 :=
  ⟨rfl, (noise_noninterference optsNoise world0 rfl).1⟩

/- ===== Trace decomposition lemmas ===== -/

theorem countE_append (q : Event → Bool) (s t : List Event) :
    countE q (s ++ t) = countE q s + countE q t := by
  simp [countE, List.filter_append]

theorem genCalls_append (s t : List Event) :
    genCalls (s ++ t) = genCalls s ++ genCalls t := by
  simp [genCalls]

/-- finish only appends reporting, saving and release events; it records no
generation call. -/
theorem genCalls_finish (o : Opts) (t : List Event) (out : Option flux_image)
    (w : World) : genCalls (finish o t out w).trace = genCalls t := by
  unfold finish
  rcases out with _ | img <;> dsimp only
  · split <;> simp [genCalls]
  · split <;> split <;> simp [genCalls]

/-- Generic count preservation through finish: any event class absent from
the reporting/saving/release suffix keeps its count. -/
theorem countE_finish (q : Event → Bool) (o : Opts) (t : List Event)
    (out : Option flux_image) (w : World)
    (h1 : q Event.disarmProgress = false) (h2 : q Event.errorMsg = false)
    (h3 : ∀ s, q (Event.saveCall s) = false)
    (h4 : q Event.freeImage = false) (h5 : q Event.freeCtx = false) :
    countE q (finish o t out w).trace = countE q t := by
  unfold finish
  rcases out with _ | img <;> dsimp only
  · split <;> simp [countE_append, countE, h1, h2, h3, h4, h5]
  · split <;> split <;> simp [countE_append, countE, h1, h2, h3, h4, h5]

theorem countE_preTrace_setSeed (o : Opts) (r : Int) :
    countE isSetSeedE (preTrace o r) = 1 := by
  unfold preTrace
  split <;> simp [countE, isSetSeedE]

theorem countE_preTrace_printSeed (o : Opts) (r : Int) :
    countE isPrintSeedE (preTrace o r) = 1 := by
  unfold preTrace
  split <;> simp [countE, isPrintSeedE]

theorem countE_preTrace_errorMsg (o : Opts) (r : Int) :
    countE isErrorMsgE (preTrace o r) = 0 := by
  unfold preTrace
  split <;> simp [countE, isErrorMsgE]

theorem countE_preTrace_save (o : Opts) (r : Int) :
    countE isSaveE (preTrace o r) = 0 := by
  unfold preTrace
  split <;> simp [countE, isSaveE]

theorem genCalls_preTrace (o : Opts) (r : Int) :
    genCalls (preTrace o r) = [] := by
  unfold preTrace
  split <;> simp [genCalls]

theorem setSeed_mem_preTrace (o : Opts) (r : Int) :
    Event.setSeed r ∈ preTrace o r := by
  unfold preTrace
  split <;> simp

theorem printSeed_mem_preTrace (o : Opts) (r : Int) :
    Event.printSeed r ∈ preTrace o r := by
  unfold preTrace
  split <;> simp

/-- The seed report precedes the generation call in any trace that starts
with the common prefix, whatever follows. -/
theorem printBeforeGen_preTrace (o : Opts) (r : Int) (rest : List Event) :
    printBeforeGen (preTrace o r ++ rest) = true := by
  unfold preTrace
  split <;> simp [printBeforeGen]

/-- The trace produced by finish extends its argument trace. -/
theorem finish_trace_decomp (o : Opts) (t : List Event) (out : Option flux_image)
    (w : World) : ∃ s, (finish o t out w).trace = t ++ s := by
  unfold finish
  rcases out with _ | img <;> dsimp only
  · exact ⟨_, List.append_assoc _ _ _⟩
  · split <;> exact ⟨_, List.append_assoc _ _ _⟩

theorem mem_finish_of_mem (o : Opts) (t : List Event) (out : Option flux_image)
    (w : World) (e : Event) (he : e ∈ t) : e ∈ (finish o t out w).trace := by
  obtain ⟨s, hs⟩ := finish_trace_decomp o t out w
  rw [hs]
  exact List.mem_append_left _ he

theorem countE_nil (q : Event → Bool) : countE q [] = 0 := rfl

theorem countE_cons (q : Event → Bool) (e : Event) (t : List Event) :
    countE q (e :: t) = (if q e then 1 else 0) + countE q t := by
  by_cases h : q e <;> simp [countE, List.filter_cons, h, Nat.add_comm]

theorem countE_mainGen_setSeed (o : Opts) (w : World) :
    countE isSetSeedE (mainGen o w).trace = 1 := by
  unfold mainGen img2imgBranch embBranch
  dsimp only
  repeat' split
  all_goals
    simp [countE_finish, countE_append, countE_cons, countE_nil,
      countE_preTrace_setSeed, isSetSeedE]

theorem countE_mainGen_printSeed (o : Opts) (w : World) :
    countE isPrintSeedE (mainGen o w).trace = 1 := by
  unfold mainGen img2imgBranch embBranch
  dsimp only
  repeat' split
  all_goals
    simp [countE_finish, countE_append, countE_cons, countE_nil,
      countE_preTrace_printSeed, isPrintSeedE]

theorem setSeed_mem_mainGen (o : Opts) (w : World) :
    Event.setSeed (resolveSeed o.params.seed w.now) ∈ (mainGen o w).trace := by
  unfold mainGen img2imgBranch embBranch
  dsimp only
  repeat' split
  all_goals
    first
      | exact List.mem_append_left _ (setSeed_mem_preTrace _ _)
      | exact mem_finish_of_mem _ _ _ _ _
          (List.mem_append_left _ (setSeed_mem_preTrace _ _))

theorem printSeed_mem_mainGen (o : Opts) (w : World) :
    Event.printSeed (resolveSeed o.params.seed w.now) ∈ (mainGen o w).trace := by
  unfold mainGen img2imgBranch embBranch
  dsimp only
  repeat' split
  all_goals
    first
      | exact List.mem_append_left _ (printSeed_mem_preTrace _ _)
      | exact mem_finish_of_mem _ _ _ _ _
          (List.mem_append_left _ (printSeed_mem_preTrace _ _))

theorem printBeforeGen_mainGen (o : Opts) (w : World) :
    printBeforeGen (mainGen o w).trace = true := by
  unfold mainGen img2imgBranch embBranch
  dsimp only
  repeat' split
  all_goals
    first
      | exact printBeforeGen_preTrace _ _ _
      | · obtain ⟨s, hs⟩ := finish_trace_decomp _ _ _ _
          rw [hs, List.append_assoc]
          exact printBeforeGen_preTrace _ _ _

theorem mainRun_eq_mainGen_of_hasGenCall (o : Opts) (w : World)
    (h : hasGenCall (mainRun o w).trace = true) : mainRun o w = mainGen o w := by
  unfold mainRun at h ⊢
  split at h
  · simp [argError, hasGenCall] at h
  · split at h
    · simp [hasGenCall, isGenCallE] at h
    · simp_all

/-- C2: for every run that reaches a generation call: a requested seed ≥ 0
resolves to itself; a negative requested seed resolves to the wall clock in
seconds; the resolved seed is non-negative even on the random path;
flux_set_seed is called exactly once, with the resolved seed; the resolved
seed is reported on stderr exactly once, whatever the verbose flag, and the
report precedes every generation call. -/
theorem seed_resolution_report (o : Opts) (w : World) :
    hasGenCall (mainRun o w).trace = true →
    (0 ≤ o.params.seed → resolveSeed o.params.seed w.now = o.params.seed) ∧
    (o.params.seed < 0 → resolveSeed o.params.seed w.now = (w.now : Int)) ∧
    0 ≤ resolveSeed o.params.seed w.now ∧
    countE isSetSeedE (mainRun o w).trace = 1 ∧
    Event.setSeed (resolveSeed o.params.seed w.now) ∈ (mainRun o w).trace ∧
    countE isPrintSeedE (mainRun o w).trace = 1 ∧
    Event.printSeed (resolveSeed o.params.seed w.now) ∈ (mainRun o w).trace ∧
    printBeforeGen (mainRun o w).trace = true := by
  intro hgen
  rw [mainRun_eq_mainGen_of_hasGenCall o w hgen]
  refine ⟨?_, ?_, ?_, countE_mainGen_setSeed o w, setSeed_mem_mainGen o w,
    countE_mainGen_printSeed o w, printSeed_mem_mainGen o w, printBeforeGen_mainGen o w⟩
  · intro h
    simp [resolveSeed, h]
  · intro h
    have hn : ¬ (0 ≤ o.params.seed) := by omega
    simp [resolveSeed, hn]
  · unfold resolveSeed
    split
    · assumption
    · exact Int.natCast_nonneg _

/-- Witness for C2 at a concrete invocation (requested seed -1, clock 42). -/
theorem seed_resolution_report_witness :
    hasGenCall (mainRun opts0 world0).trace = true ∧
    0 ≤ resolveSeed opts0.params.seed world0.now ∧
    countE isSetSeedE (mainRun opts0 world0).trace = 1 :=
  ⟨by decide, (seed_resolution_report opts0 world0 (by decide)).2.2.1,
    (seed_resolution_report opts0 world0 (by decide)).2.2.2.1⟩

theorem genCalls_nil : genCalls [] = [] := rfl

theorem genCalls_cons_gen (a : GenCallArgs) (t : List Event) :
    genCalls (Event.genCall a :: t) = a :: genCalls t := by
  simp [genCalls]

theorem genCalls_cons_other (e : Event) (t : List Event)
    (he : isGenCallE e = false) : genCalls (e :: t) = genCalls t := by
  cases e <;> simp_all [genCalls, isGenCallE]

/-- C1: mode selection is exclusive: any run's trace contains at most one
engine generation call; every generation call uses the entry point dictated
by the priority order input image > embeddings (noise attached iff a noise
path was supplied) > prompt-only; and a successful run (exit 0) makes exactly
one generation call. -/
theorem mode_selection_exclusive (o : Opts) (w : World) :
    (genCalls (mainRun o w).trace).length ≤ 1 ∧
    (∀ a ∈ genCalls (mainRun o w).trace, kindOf a = selectedKind o) ∧
    ((mainRun o w).exit = 0 → (genCalls (mainRun o w).trace).length = 1) := by
  unfold mainRun
  split
  · simp [argError, genCalls]
  · split
    · simp [genCalls]
    · unfold mainGen img2imgBranch embBranch
      dsimp only
      repeat' split
      all_goals
        simp_all [genCalls_finish, genCalls_append, genCalls_preTrace,
          genCalls_cons_gen, genCalls_cons_other, genCalls_nil, isGenCallE,
          kindOf, selectedKind]

/-- Witness for C1 at a concrete invocation (inside the conjuncts with
hypotheses): the baseline run succeeds and makes exactly one prompt-only
generation call. -/
theorem mode_selection_exclusive_witness :
    (mainRun opts0 world0).exit = 0 ∧
    (genCalls (mainRun opts0 world0).trace).length = 1 ∧
    (∀ a ∈ genCalls (mainRun opts0 world0).trace, kindOf a = selectedKind opts0) :=
  ⟨by decide, (mode_selection_exclusive opts0 world0).2.2 (by decide),
    (mode_selection_exclusive opts0 world0).2.1⟩

/-- opts0 with an embeddings file supplied (prompt kept, input and noise
absent). -/
def optsEmb : Opts := { opts0 with embeddings_path := some "e" }

/-- C5: the embeddings loader infers the sequence length as
floor(fileSizeBytes / (textDim*4)) with no divisibility validation: every
generation call of a run whose embeddings file has size f.size passes exactly
floor(f.size / (textDim*4)) tokens to the engine; a file of size textDim*4*K
yields exactly K; and a readable file whose size is NOT an exact multiple is
not rejected: the engine call still happens, with the partial trailing token
silently dropped. -/
theorem emb_seq_inference (o : Opts) (w : World) (ep : String) (f : BinFile)
    (h1 : o.input_path = none) (h2 : o.embeddings_path = some ep)
    (h3 : w.file ep = some f) :
    (∀ a ∈ genCalls (mainRun o w).trace,
        embSeqOf a = some (f.size / (FLUX_TEXT_DIM * 4))) ∧
    (∀ K : Nat, f.size = FLUX_TEXT_DIM * 4 * K → f.size / (FLUX_TEXT_DIM * 4) = K) ∧
    (validArgs o = true → w.loadOk = true → f.readOk = true → o.noise_path = none →
        genCalls (mainRun o w).trace =
          [GenCallArgs.withEmb (f.size / (FLUX_TEXT_DIM * 4)) o.params]) := by
  refine ⟨?_, ?_, ?_⟩
  · unfold mainRun
    split
    · simp [argError, genCalls]
    · split
      · simp [genCalls]
      · unfold mainGen embBranch
        simp only [h1, h2, h3]
        repeat' split
        all_goals
          simp_all [genCalls_finish, genCalls_append, genCalls_preTrace,
            genCalls_cons_gen, genCalls_cons_other, genCalls_nil, isGenCallE,
            embSeqOf]
  · intro K hK
    rw [hK]
    exact Nat.mul_div_cancel_left K (by norm_num [FLUX_TEXT_DIM])
  · intro hva hlo hro hnp
    unfold mainRun mainGen embBranch
    simp only [hva, hlo, h1, h2, h3, hro, hnp]
    simp [genCalls_finish, genCalls_append, genCalls_preTrace,
      genCalls_cons_gen, genCalls_cons_other, genCalls_nil, isGenCallE]

/-- Witness for C5 at a concrete invocation: the file size 61443 bytes is not
a multiple of 7680*4 = 30720; the run still generates, passing the truncated
length 2. -/
theorem emb_seq_inference_witness :
    optsEmb.embeddings_path = some "e" ∧
    world0.file "e" = some ⟨61443, true⟩ ∧
    genCalls (mainRun optsEmb world0).trace =
      [GenCallArgs.withEmb (61443 / (FLUX_TEXT_DIM * 4)) optsEmb.params] ∧
    61443 / (FLUX_TEXT_DIM * 4) = 2 :=
  ⟨rfl, rfl,
    (emb_seq_inference optsEmb world0 "e" ⟨61443, true⟩ rfl rfl rfl).2.2
      (by decide) rfl rfl rfl,
    by decide⟩

/-- opts0 with an input image for img2img and an explicitly set width (the
height is left to default, so it will be overridden by the image's). -/
def optsI2I : Opts := { opts0 with input_path := some "i", width_set := true }

/-- C6: in image-to-image mode, the requested width (respectively height) is
overwritten with the loaded input image's width (height) exactly when the
caller did not pass the corresponding explicit-size flag; when the flag was
passed the caller's value is kept unchanged, even if it differs from the
image's dimension; all other generation parameters are untouched. -/
theorem img2img_size_override (o : Opts) (w : World) (ip : String)
    (img : flux_image) (hva : validArgs o = true) (hlo : w.loadOk = true)
    (h1 : o.input_path = some ip) (h2 : w.loadImage ip = some img) :
    ∃ p : flux_params,
      genCalls (mainRun o w).trace =
        [GenCallArgs.img2img o.prompt img.width img.height p] ∧
      (o.width_set = false → p.width = img.width) ∧
      (o.width_set = true → p.width = o.params.width) ∧
      (o.height_set = false → p.height = img.height) ∧
      (o.height_set = true → p.height = o.params.height) ∧
      p.num_steps = o.params.num_steps ∧
      p.guidance_scale = o.params.guidance_scale ∧
      p.seed = o.params.seed ∧
      p.strength = o.params.strength := by
  refine ⟨{ o.params with
      width := if o.width_set then o.params.width else img.width,
      height := if o.height_set then o.params.height else img.height },
    ?_, ?_, ?_, ?_, ?_, rfl, rfl, rfl, rfl⟩
  · unfold mainRun mainGen img2imgBranch
    simp only [hva, hlo, h1, h2]
    simp [genCalls_finish, genCalls_append, genCalls_preTrace,
      genCalls_cons_gen, genCalls_cons_other, genCalls_nil, isGenCallE]
  · intro h
    simp [h]
  · intro h
    simp [h]
  · intro h
    simp [h]
  · intro h
    simp [h]

/-- Witness for C6 at a concrete invocation: width was passed explicitly
(kept at 256), height was not (overridden by the input image's 96). -/
theorem img2img_size_override_witness :
    validArgs optsI2I = true ∧
    ∃ p : flux_params,
      genCalls (mainRun optsI2I world0).trace =
        [GenCallArgs.img2img optsI2I.prompt 128 96 p] ∧
      (optsI2I.width_set = false → p.width = 128) ∧
      (optsI2I.width_set = true → p.width = optsI2I.params.width) ∧
      (optsI2I.height_set = false → p.height = 96) ∧
      (optsI2I.height_set = true → p.height = optsI2I.params.height) ∧
      p.num_steps = optsI2I.params.num_steps ∧
      p.guidance_scale = optsI2I.params.guidance_scale ∧
      p.seed = optsI2I.params.seed ∧
      p.strength = optsI2I.params.strength :=
  ⟨by decide,
    img2img_size_override optsI2I world0 "i" ⟨128, 96, 3⟩ (by decide) rfl rfl rfl⟩

/-- The progress reporter is armed only in verbose mode: a non-verbose run
never records an arming event. -/
theorem arm_not_mem_of_not_verbose (o : Opts) (w : World) (hv : o.verbose = false) :
    Event.armProgress ∉ (mainRun o w).trace := by
  intro hmem
  unfold mainRun mainGen img2imgBranch embBranch finish preTrace argError at hmem
  simp only [hv] at hmem
  repeat' split at hmem
  all_goals simp_all

theorem finish_some_error (o : Opts) (t : List Event) (img : flux_image)
    (w : World) :
    (finish o t (some img) w).error ≠ some RunError.GenerationError := by
  unfold finish
  dsimp only
  split <;> simp

/-- A verbose run whose finish sees a null output: the reporter is disarmed,
the context freed, the failure reported once, nothing saved or printed. -/
theorem finish_gen_failure (o : Opts) (t : List Event) (out : Option flux_image)
    (w : World) (hv : o.verbose = true)
    (hFail : (finish o t out w).error = some RunError.GenerationError)
    (hterr : countE isErrorMsgE t = 0) (htsave : countE isSaveE t = 0) :
    Event.disarmProgress ∈ (finish o t out w).trace ∧
    Event.freeCtx ∈ (finish o t out w).trace ∧
    (finish o t out w).exit = 1 ∧
    countE isErrorMsgE (finish o t out w).trace = 1 ∧
    countE isSaveE (finish o t out w).trace = 0 ∧
    (finish o t out w).stdout = [] := by
  rcases out with _ | img
  · unfold finish
    dsimp only
    simp [hv, countE_append, countE_cons, countE_nil, isErrorMsgE, isSaveE,
      hterr, htsave]
  · exact absurd hFail (finish_some_error o t img w)

/-- C9: a run whose Progress Reporter was armed and whose generation call
returned failure (null output) still disarms the reporter and frees the model
context; it exits with status 1, reports the failure exactly once, saves
nothing and prints nothing to standard output. -/
theorem gen_failure_cleanup (o : Opts) (w : World) :
    Event.armProgress ∈ (mainRun o w).trace →
    (mainRun o w).error = some RunError.GenerationError →
    Event.disarmProgress ∈ (mainRun o w).trace ∧
    Event.freeCtx ∈ (mainRun o w).trace ∧
    (mainRun o w).exit = 1 ∧
    countE isErrorMsgE (mainRun o w).trace = 1 ∧
    countE isSaveE (mainRun o w).trace = 0 ∧
    (mainRun o w).stdout = [] := by
  intro hArm hFail
  by_cases hv : o.verbose = true
  case neg =>
    exact absurd hArm (arm_not_mem_of_not_verbose o w (by simpa using hv))
  case pos =>
    by_cases hva : validArgs o = false
    · have he : (mainRun o w).error = some RunError.ArgumentError := by
        simp [mainRun, hva, argError]
      rw [he] at hFail
      simp at hFail
    · by_cases hlo : w.loadOk = false
      · have he : (mainRun o w).error = some RunError.ModelLoadError := by
          simp [mainRun, hva, hlo]
        rw [he] at hFail
        simp at hFail
      · have hmg : mainRun o w = mainGen o w := by
          simp [mainRun, hva, hlo]
        rw [hmg] at hFail ⊢
        unfold mainGen img2imgBranch embBranch at hFail ⊢
        repeat' split
        all_goals try simp [*] at hFail
        all_goals
          exact finish_gen_failure _ _ _ _ hv hFail
            (by simp [countE_append, countE_cons, countE_nil,
              countE_preTrace_errorMsg, isErrorMsgE])
            (by simp [countE_append, countE_cons, countE_nil,
              countE_preTrace_save, isSaveE])

/-- opts0 in verbose mode (the reporter is armed). -/
def optsVerbose : Opts := { opts0 with verbose := true }

/-- Witness for C9 at a concrete invocation: verbose run in a world where
generation fails. -/
theorem gen_failure_cleanup_witness :
    Event.armProgress ∈ (mainRun optsVerbose world1).trace ∧
    (mainRun optsVerbose world1).error = some RunError.GenerationError ∧
    Event.disarmProgress ∈ (mainRun optsVerbose world1).trace :=
  ⟨by decide, by decide,
    (gen_failure_cleanup optsVerbose world1 (by decide) (by decide)).1⟩
